import Mathlib

/-!
Verification of the linalgo assignment/review scheduler
(`linalgo/scheduler.py`) against its specification.

The scheduler decides which documents to hand to an annotator for fresh
labeling (`random_assign`) or to a reviewer auditing another annotator's
completed work (`random_review`).  Both operations read a task view
(annotators, documents, submitted annotations) and a tabular assignment
ledger snapshot with columns `(document, annotator, task, status, type)`,
compute an eligible pool by set algebra, and either return the pool or a
random sample without replacement.

Embedding notes:
* opaque uuids are modelled as `Nat`;
* the pandas DataFrame `schedule` is a `List Rec` of rows; Python sets
  produced by `set(...)` become deduplicated lists (`List.dedup`), whose
  membership is the set semantics every claim is stated in;
* `np.random.choice(pool, size=n, replace=False)` is modelled by
  `npChoice`, a seed-driven draw without replacement (repeatedly pick a
  seed-determined index and remove it);  the ambient numpy global seed
  becomes an explicit `seed : Nat` argument;
* Python `raise` becomes `Except.error`; the two exception classes
  `AnnotatorNotFound` and `NotEnoughReviews` become the constructors of
  `SchedulerError`.  In the source both classes have empty bodies;
  `AnnotatorNotFound` is raised with no arguments in `random_review` and
  with a formatted message string in `random_assign`, which the embedding
  records as an `Option String` payload;
* each operation returns its result paired with the (unchanged) scheduler
  state, making the absence of mutation a provable statement.
-/

namespace Linalgo

/-- Model of the `AssignmentStatus` enum from `linalgo/hub/client.py`. -/
inductive AssignmentStatus where
  | ASSIGNED
  | COMPLETED
  deriving DecidableEq, Repr

/-- The serialized value of an `AssignmentStatus`, as stored in the
ledger's `status` column (`ASSIGNED = 'A'`, `COMPLETED = 'C'`). -/
def AssignmentStatus.value : AssignmentStatus → String
  | .ASSIGNED => "A"
  | .COMPLETED => "C"

/-- One row of the assignment-ledger snapshot (`self.schedule`):
columns `document`, `annotator`, `status`, `type`.  The `status` and
`type` columns hold raw serialized strings, as in the DataFrame. -/
structure Rec where
  document : Nat
  annotator : Nat
  status : String
  type : String
  deriving DecidableEq, Repr

/-- An annotator of the task (only its id is read by the scheduler). -/
structure Annotator where
  id : Nat
  deriving DecidableEq, Repr

/-- A document of the task (only its id is read by the scheduler). -/
structure Document where
  id : Nat
  deriving DecidableEq, Repr

/-- A submitted item of the task's labeling output: the scheduler reads
`annotation.to_json()['document']`, the id of the annotated document. -/
structure Annot where
  document : Nat
  annotator : Nat
  deriving DecidableEq, Repr

/-- The read-only task view: `task.annotators`, `task.documents`,
`task.annotations`. -/
structure Task where
  annotators : List Annotator
  documents : List Document
  annotations : List Annot
  deriving DecidableEq, Repr

/-- State built by `Scheduler.__init__(task, schedule)`. -/
structure Scheduler where
  task : Task
  schedule : List Rec
  deriving DecidableEq, Repr

/-- The failure kinds of `linalgo/scheduler.py`: `AnnotatorNotFound`
(raised bare in `random_review`, with a message in `random_assign`) and
`NotEnoughReviews` (always raised bare). -/
inductive SchedulerError where
  | annotatorNotFound (msg : Option String)
  | notEnoughReviews
  deriving DecidableEq, Repr

/-- Computes `{a.id for a in self.task.annotators}` (as a list;
membership is what the source tests). -/
def annotatorIds (t : Task) : List Nat :=
  t.annotators.map (·.id)

/-- Computes `set(self.schedule.loc[idx, 'document'])` for
`idx = (annotator == a) & (seen_idx | pending_idx)`: the documents for
which annotator `a` has a ledger row with status COMPLETED or ASSIGNED. -/
def touchedDocs (sched : List Rec) (a : Nat) : List Nat :=
  ((sched.filter fun r =>
      r.annotator == a &&
      (r.status == AssignmentStatus.COMPLETED.value ||
       r.status == AssignmentStatus.ASSIGNED.value)).map (·.document)).dedup

/-- Computes `set(self.schedule.loc[idx, 'document'])` for
`idx = (annotator == a) & seen_idx`: the documents for which annotator
`a` has a ledger row with status COMPLETED. -/
def completedDocs (sched : List Rec) (a : Nat) : List Nat :=
  ((sched.filter fun r =>
      r.annotator == a &&
      r.status == AssignmentStatus.COMPLETED.value).map (·.document)).dedup

/-- Computes `pool = list(reviewee_docs - reviewer_docs)` of `random_review`. -/
def reviewPool (sched : List Rec) (reviewer_id reviewee_id : Nat) : List Nat :=
  (completedDocs sched reviewee_id).filter fun d =>
    decide (d ∉ touchedDocs sched reviewer_id)

/-- Computes `pool = list(all_new_docs - assignee_docs)` of `random_assign`, where
`all_new_docs = all_docs - all_seen_docs`. -/
def assignPool (s : Scheduler) (assignee_id : Nat) : List Nat :=
  let all_docs : List Nat := (s.task.documents.map (·.id)).dedup
  let all_seen_docs : List Nat := (s.task.annotations.map (·.document)).dedup
  let all_new_docs : List Nat :=
    all_docs.filter fun d => decide (d ∉ all_seen_docs)
  all_new_docs.filter fun d => decide (d ∉ touchedDocs s.schedule assignee_id)

/-- One step of a linear congruential generator; drives the successive
index draws of `npChoice`. -/
def lcg (seed : Nat) : Nat :=
  (seed * 1664525 + 1013904223) % 4294967296

/-- Model of `np.random.choice(pool, size=n, replace=False)`: draw `n`
elements without replacement, each draw removing a seed-determined index
from the remaining pool. -/
def npChoice : Nat → Nat → List Nat → List Nat
  | 0, _, _ => []
  | n + 1, seed, pool =>
    if h : 0 < pool.length then
      let k : Fin pool.length := ⟨seed % pool.length, Nat.mod_lt _ h⟩
      pool.get k :: npChoice n (lcg seed) (pool.eraseIdx k.val)
    else []

/-- Embedding of `Scheduler.random_review(reviewer_id, reviewee_id, n=None)`.  Returns
the outcome (`Except` in place of `raise`) paired with the scheduler
state after the call. -/
def random_review (s : Scheduler) (reviewer_id reviewee_id : Nat)
    (n : Option Nat) (seed : Nat) :
    Except SchedulerError (List Nat) × Scheduler :=
  if reviewer_id ∉ annotatorIds s.task ∨ reviewee_id ∉ annotatorIds s.task then
    (.error (.annotatorNotFound none), s)
  else
    match n with
    | none => (.ok (reviewPool s.schedule reviewer_id reviewee_id), s)
    | some k =>
      if k > (reviewPool s.schedule reviewer_id reviewee_id).length then
        (.error .notEnoughReviews, s)
      else
        (.ok (npChoice k seed (reviewPool s.schedule reviewer_id reviewee_id)), s)

/-- Embedding of `Scheduler.random_assign(assignee_id, n)`.  Returns the outcome
paired with the scheduler state after the call. -/
def random_assign (s : Scheduler) (assignee_id : Nat) (n : Nat)
    (seed : Nat) :
    Except SchedulerError (List Nat) × Scheduler :=
  if assignee_id ∉ annotatorIds s.task then
    (.error (.annotatorNotFound
      (some (toString assignee_id ++ " is not a known annotator"))), s)
  else
    if n > (assignPool s assignee_id).length then
      (.error .notEnoughReviews, s)
    else
      (.ok (npChoice n seed (assignPool s assignee_id)), s)

/-! ### Spec-side predicates

These follow the specification's wording, to be compared with the
source-derived pools above: `reviewerTouched` = documents where the
reviewer has any ledger record with status ASSIGNED or COMPLETED,
regardless of type; `revieweeCompleted` = documents where the reviewee
has a ledger record with status COMPLETED. -/

/-- Spec: annotator `a` has some ledger record for document `d` with
status ASSIGNED or COMPLETED (regardless of record type). -/
def spec_touched (sched : List Rec) (a d : Nat) : Prop :=
  ∃ r ∈ sched, r.annotator = a ∧ r.document = d ∧
    (r.status = AssignmentStatus.ASSIGNED.value ∨
     r.status = AssignmentStatus.COMPLETED.value)

/-- Spec: annotator `a` has some ledger record for document `d` with
status COMPLETED. -/
def spec_completed (sched : List Rec) (a d : Nat) : Prop :=
  ∃ r ∈ sched, r.annotator = a ∧ r.document = d ∧
    r.status = AssignmentStatus.COMPLETED.value

/-! ### Pool membership lemmas -/

theorem mem_touchedDocs {sched : List Rec} {a d : Nat} :
    d ∈ touchedDocs sched a ↔ spec_touched sched a d := by
  simp only [touchedDocs, spec_touched, List.mem_dedup, List.mem_map,
    List.mem_filter, Bool.and_eq_true, Bool.or_eq_true, beq_iff_eq]
  constructor
  · rintro ⟨r, ⟨hr, ha, hs⟩, hd⟩
    exact ⟨r, hr, ha, hd, Or.symm hs⟩
  · rintro ⟨r, hr, ha, hd, hs⟩
    exact ⟨r, ⟨hr, ha, Or.symm hs⟩, hd⟩

theorem mem_completedDocs {sched : List Rec} {a d : Nat} :
    d ∈ completedDocs sched a ↔ spec_completed sched a d := by
  simp only [completedDocs, spec_completed, List.mem_dedup, List.mem_map,
    List.mem_filter, Bool.and_eq_true, beq_iff_eq]
  constructor
  · rintro ⟨r, ⟨hr, ha, hs⟩, hd⟩
    exact ⟨r, hr, ha, hd, hs⟩
  · rintro ⟨r, hr, ha, hd, hs⟩
    exact ⟨r, ⟨hr, ha, hs⟩, hd⟩

theorem mem_reviewPool {sched : List Rec} {rv re d : Nat} :
    d ∈ reviewPool sched rv re ↔
      spec_completed sched re d ∧ ¬ spec_touched sched rv d := by
  simp only [reviewPool, List.mem_filter, decide_eq_true_eq,
    mem_completedDocs, mem_touchedDocs]

theorem mem_assignPool {s : Scheduler} {a d : Nat} :
    d ∈ assignPool s a ↔
      (d ∈ s.task.documents.map (·.id) ∧
       (∀ ann ∈ s.task.annotations, Annot.document ann ≠ d) ∧
       ¬ spec_touched s.schedule a d) := by
  simp only [assignPool, List.mem_filter, decide_eq_true_eq, List.mem_dedup,
    mem_touchedDocs, List.mem_map]
  constructor
  · rintro ⟨⟨hdoc, hseen⟩, htouch⟩
    refine ⟨hdoc, ?_, htouch⟩
    intro ann hann hda
    exact hseen ⟨ann, hann, hda⟩
  · rintro ⟨hdoc, hseen, htouch⟩
    refine ⟨⟨hdoc, ?_⟩, htouch⟩
    rintro ⟨ann, hann, hda⟩
    exact hseen ann hann hda

/-! ### Sampling lemmas: `npChoice` draws without replacement -/

theorem npChoice_subset :
    ∀ (n seed : Nat) (pool : List Nat), npChoice n seed pool ⊆ pool := by
  intro n
  induction n with
  | zero => intro seed pool; simp [npChoice]
  | succ m ih =>
    intro seed pool x hx
    rw [npChoice] at hx
    by_cases h : 0 < pool.length
    · rw [dif_pos h] at hx
      rcases List.mem_cons.mp hx with hx | hx
      · exact hx ▸ pool.get_mem _ _
      · exact List.eraseIdx_subset _ _ (ih (lcg seed) _ hx)
    · rw [dif_neg h] at hx
      exact absurd hx (List.not_mem_nil x)

theorem npChoice_length :
    ∀ (n seed : Nat) (pool : List Nat), n ≤ pool.length →
      (npChoice n seed pool).length = n := by
  intro n
  induction n with
  | zero => intro seed pool _; simp [npChoice]
  | succ m ih =>
    intro seed pool h
    have hpos : 0 < pool.length := Nat.lt_of_lt_of_le (Nat.succ_pos m) h
    rw [npChoice, dif_pos hpos]
    have hk : seed % pool.length < pool.length := Nat.mod_lt _ hpos
    have herase : (pool.eraseIdx (seed % pool.length)).length =
        pool.length - 1 := List.length_eraseIdx_of_lt hk
    have hm : m ≤ (pool.eraseIdx (seed % pool.length)).length := by
      rw [herase]
      omega
    simp [ih (lcg seed) _ hm]

theorem npChoice_nodup :
    ∀ (n seed : Nat) (pool : List Nat), pool.Nodup →
      (npChoice n seed pool).Nodup := by
  intro n
  induction n with
  | zero => intro seed pool _; simp [npChoice]
  | succ m ih =>
    intro seed pool hnd
    rw [npChoice]
    by_cases h : 0 < pool.length
    · rw [dif_pos h]
      refine List.nodup_cons.mpr ⟨?_, ih (lcg seed) _ (hnd.eraseIdx _)⟩
      intro hmem
      have hmem' : pool.get ⟨seed % pool.length, Nat.mod_lt _ h⟩ ∈
          pool.eraseIdx (seed % pool.length) :=
        npChoice_subset m (lcg seed) _ hmem
      rw [List.mem_eraseIdx_iff_getElem] at hmem'
      rcases hmem' with ⟨i, hi, hne, heq⟩
      rw [List.get_eq_getElem] at heq
      exact hne ((hnd.getElem_inj_iff).mp heq)
    · rw [dif_neg h]
      exact List.nodup_nil

/-- Drawing as many elements as the pool holds returns a permutation of
the pool. -/
theorem npChoice_perm (seed : Nat) (pool : List Nat) (hnd : pool.Nodup) :
    List.Perm (npChoice pool.length seed pool) pool := by
  have hsub : List.Subperm (npChoice pool.length seed pool) pool :=
    List.subperm_of_subset (npChoice_nodup _ seed pool hnd)
      (npChoice_subset _ seed pool)
  exact hsub.perm_of_length_le
    (Nat.le_of_eq (npChoice_length _ seed pool le_rfl).symm)

/-- Both pools are deduplicated: no document id appears twice. -/
theorem reviewPool_nodup (sched : List Rec) (rv re : Nat) :
    (reviewPool sched rv re).Nodup :=
  (List.nodup_dedup _).filter _

theorem assignPool_nodup (s : Scheduler) (a : Nat) :
    (assignPool s a).Nodup :=
  ((List.nodup_dedup _).filter _).filter _

/-! ### Unfolding helpers for the two operations -/

theorem random_review_guard_fail {s : Scheduler} {rv re : Nat}
    (h : rv ∉ annotatorIds s.task ∨ re ∉ annotatorIds s.task)
    (n : Option Nat) (seed : Nat) :
    random_review s rv re n seed = (.error (.annotatorNotFound none), s) := by
  rw [random_review.eq_def, if_pos h]

theorem random_review_none {s : Scheduler} {rv re : Nat}
    (h1 : rv ∈ annotatorIds s.task) (h2 : re ∈ annotatorIds s.task)
    (seed : Nat) :
    random_review s rv re none seed =
      (.ok (reviewPool s.schedule rv re), s) := by
  rw [random_review.eq_def, if_neg]
  push_neg
  exact ⟨h1, h2⟩

theorem random_review_some_le {s : Scheduler} {rv re k : Nat}
    (h1 : rv ∈ annotatorIds s.task) (h2 : re ∈ annotatorIds s.task)
    (hk : k ≤ (reviewPool s.schedule rv re).length) (seed : Nat) :
    random_review s rv re (some k) seed =
      (.ok (npChoice k seed (reviewPool s.schedule rv re)), s) := by
  rw [random_review.eq_def, if_neg]
  · exact if_neg (Nat.not_lt.mpr hk)
  · push_neg
    exact ⟨h1, h2⟩

theorem random_review_some_gt {s : Scheduler} {rv re k : Nat}
    (h1 : rv ∈ annotatorIds s.task) (h2 : re ∈ annotatorIds s.task)
    (hk : k > (reviewPool s.schedule rv re).length) (seed : Nat) :
    random_review s rv re (some k) seed =
      (.error .notEnoughReviews, s) := by
  rw [random_review.eq_def, if_neg]
  · exact if_pos hk
  · push_neg
    exact ⟨h1, h2⟩

theorem random_assign_guard_fail {s : Scheduler} {a : Nat}
    (h : a ∉ annotatorIds s.task) (n seed : Nat) :
    random_assign s a n seed =
      (.error (.annotatorNotFound
        (some (toString a ++ " is not a known annotator"))), s) := by
  rw [random_assign, if_pos h]

theorem random_assign_le {s : Scheduler} {a n : Nat}
    (h : a ∈ annotatorIds s.task)
    (hn : n ≤ (assignPool s a).length) (seed : Nat) :
    random_assign s a n seed =
      (.ok (npChoice n seed (assignPool s a)), s) := by
  rw [random_assign, if_neg (by simpa using h), if_neg (Nat.not_lt.mpr hn)]

theorem random_assign_gt {s : Scheduler} {a n : Nat}
    (h : a ∈ annotatorIds s.task)
    (hn : n > (assignPool s a).length) (seed : Nat) :
    random_assign s a n seed = (.error .notEnoughReviews, s) := by
  rw [random_assign, if_neg (by simpa using h), if_pos hn]

/-! ### Concrete fixtures

`egScheduler` is the spec's labeling example: documents D1..D5, D1 and D2
already annotated, annotator A3 holding an ASSIGNED record for D3.
`revScheduler` is the spec's review example: reviewee 2 has COMPLETED
documents 1, 2, 3 and reviewer 1 has touched document 2. -/

def egTask : Task :=
  { annotators := [⟨1⟩, ⟨2⟩, ⟨3⟩]
    documents := [⟨1⟩, ⟨2⟩, ⟨3⟩, ⟨4⟩, ⟨5⟩]
    annotations := [⟨1, 1⟩, ⟨2, 2⟩] }

def egScheduler : Scheduler :=
  { task := egTask
    schedule := [⟨3, 3, "A", "A"⟩] }

def revScheduler : Scheduler :=
  { task := { annotators := [⟨1⟩, ⟨2⟩]
              documents := [⟨1⟩, ⟨2⟩, ⟨3⟩]
              annotations := [] }
    schedule := [⟨1, 2, "C", "A"⟩, ⟨2, 2, "C", "A"⟩, ⟨3, 2, "C", "A"⟩,
                 ⟨2, 1, "A", "A"⟩] }

/-! ### The claims -/

/-- C1: for every task and ledger snapshot, and ids that are both members
of the task's annotator set, `random_review` without `n` succeeds and its
result contains, as a set, exactly the documents for which the reviewee
has a COMPLETED ledger record minus the documents for which the reviewer
has any ledger record with status ASSIGNED or COMPLETED (regardless of
record type). -/
theorem review_no_n_returns_pool (s : Scheduler) (rv re seed : Nat)
    (h1 : rv ∈ annotatorIds s.task) (h2 : re ∈ annotatorIds s.task) :
    ∃ pool, (random_review s rv re none seed).1 = .ok pool ∧
      ∀ d, d ∈ pool ↔
        (spec_completed s.schedule re d ∧ ¬ spec_touched s.schedule rv d) := by
  refine ⟨reviewPool s.schedule rv re, ?_, fun d => mem_reviewPool⟩
  rw [random_review_none h1 h2]

theorem review_no_n_returns_pool_witness :
    (1 : Nat) ∈ annotatorIds revScheduler.task ∧
    (2 : Nat) ∈ annotatorIds revScheduler.task ∧
    ∃ pool, (random_review revScheduler 1 2 none 0).1 = .ok pool ∧
      ∀ d, d ∈ pool ↔
        (spec_completed revScheduler.schedule 2 d ∧
         ¬ spec_touched revScheduler.schedule 1 d) :=
  ⟨by decide, by decide,
    review_no_n_returns_pool revScheduler 1 2 0 (by decide) (by decide)⟩

/-- C2: for every task and ledger snapshot, every assignee in the task's
annotator set and every `n` within the eligible pool size, the result of
`random_assign` is disjoint from the assignee's ASSIGNED/COMPLETED
documents, disjoint from documents referenced by any submitted item of
the task's labeling output, and a subset of the task's document set. -/
theorem assign_exclusivity (s : Scheduler) (a n seed : Nat)
    (h : a ∈ annotatorIds s.task) (hn : n ≤ (assignPool s a).length) :
    ∃ res, (random_assign s a n seed).1 = .ok res ∧
      (∀ d ∈ res, ¬ spec_touched s.schedule a d) ∧
      (∀ d ∈ res, ∀ ann ∈ s.task.annotations, Annot.document ann ≠ d) ∧
      (∀ d ∈ res, d ∈ s.task.documents.map (·.id)) := by
  refine ⟨npChoice n seed (assignPool s a), ?_, ?_, ?_, ?_⟩
  · rw [random_assign_le h hn]
  · intro d hd
    exact (mem_assignPool.mp (npChoice_subset n seed _ hd)).2.2
  · intro d hd
    exact (mem_assignPool.mp (npChoice_subset n seed _ hd)).2.1
  · intro d hd
    exact (mem_assignPool.mp (npChoice_subset n seed _ hd)).1

theorem assign_exclusivity_witness :
    (3 : Nat) ∈ annotatorIds egScheduler.task ∧
    2 ≤ (assignPool egScheduler 3).length ∧
    ∃ res, (random_assign egScheduler 3 2 7).1 = .ok res ∧
      (∀ d ∈ res, ¬ spec_touched egScheduler.schedule 3 d) ∧
      (∀ d ∈ res, ∀ ann ∈ egScheduler.task.annotations,
        Annot.document ann ≠ d) ∧
      (∀ d ∈ res, d ∈ egScheduler.task.documents.map (·.id)) :=
  ⟨by decide, by decide,
    assign_exclusivity egScheduler 3 2 7 (by decide) (by decide)⟩

/-- C3: a call of either operation naming an annotator id outside the
task's annotator set fails with the unknown-annotator error
(`AnnotatorNotFound`), no result is produced, and the check precedes any
pool computation: the outcome is unchanged under arbitrary replacement of
the ledger snapshot, the document set and the submitted annotations. -/
theorem unknown_annotator_guard
    (anns : List Annotator) (docs docs' : List Document)
    (ans ans' : List Annot) (sch sch' : List Rec)
    (rv re a : Nat) (n : Option Nat) (m seed : Nat)
    (hrv : rv ∉ annotatorIds (Task.mk anns docs ans) ∨
           re ∉ annotatorIds (Task.mk anns docs ans))
    (ha : a ∉ annotatorIds (Task.mk anns docs ans)) :
    ((random_review ⟨Task.mk anns docs ans, sch⟩ rv re n seed).1 =
        .error (.annotatorNotFound none) ∧
      (random_review ⟨Task.mk anns docs ans, sch⟩ rv re n seed).1 =
        (random_review ⟨Task.mk anns docs' ans', sch'⟩ rv re n seed).1) ∧
    ((random_assign ⟨Task.mk anns docs ans, sch⟩ a m seed).1 =
        .error (.annotatorNotFound
          (some (toString a ++ " is not a known annotator"))) ∧
      (random_assign ⟨Task.mk anns docs ans, sch⟩ a m seed).1 =
        (random_assign ⟨Task.mk anns docs' ans', sch'⟩ a m seed).1) := by
  have hrv' : rv ∉ annotatorIds (Task.mk anns docs' ans') ∨
      re ∉ annotatorIds (Task.mk anns docs' ans') := hrv
  have ha' : a ∉ annotatorIds (Task.mk anns docs' ans') := ha
  constructor
  · constructor
    · rw [random_review_guard_fail hrv]
    · rw [random_review_guard_fail hrv, random_review_guard_fail hrv']
  · constructor
    · rw [random_assign_guard_fail ha]
    · rw [random_assign_guard_fail ha, random_assign_guard_fail ha']

theorem unknown_annotator_guard_witness :
    ((5 : Nat) ∉ annotatorIds (Task.mk [⟨1⟩] [⟨1⟩] []) ∨
     (1 : Nat) ∉ annotatorIds (Task.mk [⟨1⟩] [⟨1⟩] [])) ∧
    (6 : Nat) ∉ annotatorIds (Task.mk [⟨1⟩] [⟨1⟩] []) ∧
    (((random_review ⟨Task.mk [⟨1⟩] [⟨1⟩] [], []⟩ 5 1 none 0).1 =
        .error (.annotatorNotFound none) ∧
      (random_review ⟨Task.mk [⟨1⟩] [⟨1⟩] [], []⟩ 5 1 none 0).1 =
        (random_review ⟨Task.mk [⟨1⟩] [] [], [⟨1, 1, "C", "A"⟩]⟩
          5 1 none 0).1) ∧
     ((random_assign ⟨Task.mk [⟨1⟩] [⟨1⟩] [], []⟩ 6 1 0).1 =
        .error (.annotatorNotFound
          (some (toString (6 : Nat) ++ " is not a known annotator"))) ∧
      (random_assign ⟨Task.mk [⟨1⟩] [⟨1⟩] [], []⟩ 6 1 0).1 =
        (random_assign ⟨Task.mk [⟨1⟩] [] [], [⟨1, 1, "C", "A"⟩]⟩
          6 1 0).1)) :=
  ⟨by decide, by decide,
    unknown_annotator_guard [⟨1⟩] [⟨1⟩] [] [] [] [] [⟨1, 1, "C", "A"⟩]
      5 1 6 none 1 0 (by decide) (by decide)⟩

/-- C4: with valid annotator ids, requesting strictly more documents than
the eligible pool holds makes either operation fail with the
insufficient-pool error (`NotEnoughReviews`); no result set is returned,
never a silently truncated sample. -/
theorem insufficient_pool_guard (s : Scheduler) (rv re a n m seed : Nat)
    (h1 : rv ∈ annotatorIds s.task) (h2 : re ∈ annotatorIds s.task)
    (h3 : a ∈ annotatorIds s.task)
    (hn : n > (reviewPool s.schedule rv re).length)
    (hm : m > (assignPool s a).length) :
    (random_review s rv re (some n) seed).1 = .error .notEnoughReviews ∧
    (random_assign s a m seed).1 = .error .notEnoughReviews := by
  constructor
  · rw [random_review_some_gt h1 h2 hn]
  · rw [random_assign_gt h3 hm]

theorem insufficient_pool_guard_witness :
    (1 : Nat) ∈ annotatorIds revScheduler.task ∧
    (2 : Nat) ∈ annotatorIds revScheduler.task ∧
    3 > (reviewPool revScheduler.schedule 1 2).length ∧
    3 > (assignPool revScheduler 1).length ∧
    ((random_review revScheduler 1 2 (some 3) 0).1 =
       .error .notEnoughReviews ∧
     (random_assign revScheduler 1 3 0).1 = .error .notEnoughReviews) :=
  ⟨by decide, by decide, by decide, by decide,
    insufficient_pool_guard revScheduler 1 2 1 3 3 0
      (by decide) (by decide) (by decide) (by decide) (by decide)⟩

/-- C5: with valid annotator ids and `n` at most the eligible pool size,
either operation succeeds and returns exactly `n` distinct document ids,
each drawn from the eligible pool (sampling is without replacement). -/
theorem sample_size_contract (s : Scheduler) (rv re a n m seed : Nat)
    (h1 : rv ∈ annotatorIds s.task) (h2 : re ∈ annotatorIds s.task)
    (h3 : a ∈ annotatorIds s.task)
    (hn : n ≤ (reviewPool s.schedule rv re).length)
    (hm : m ≤ (assignPool s a).length) :
    (∃ res, (random_review s rv re (some n) seed).1 = .ok res ∧
      res.length = n ∧ res.Nodup ∧
      ∀ d ∈ res, d ∈ reviewPool s.schedule rv re) ∧
    (∃ res, (random_assign s a m seed).1 = .ok res ∧
      res.length = m ∧ res.Nodup ∧ ∀ d ∈ res, d ∈ assignPool s a) := by
  constructor
  · refine ⟨npChoice n seed (reviewPool s.schedule rv re), ?_,
      npChoice_length n seed _ hn,
      npChoice_nodup n seed _ (reviewPool_nodup _ _ _),
      fun d hd => npChoice_subset n seed _ hd⟩
    rw [random_review_some_le h1 h2 hn]
  · refine ⟨npChoice m seed (assignPool s a), ?_,
      npChoice_length m seed _ hm,
      npChoice_nodup m seed _ (assignPool_nodup _ _),
      fun d hd => npChoice_subset m seed _ hd⟩
    rw [random_assign_le h3 hm]

theorem sample_size_contract_witness :
    (1 : Nat) ∈ annotatorIds revScheduler.task ∧
    (2 : Nat) ∈ annotatorIds revScheduler.task ∧
    2 ≤ (reviewPool revScheduler.schedule 1 2).length ∧
    1 ≤ (assignPool revScheduler 1).length ∧
    ((∃ res, (random_review revScheduler 1 2 (some 2) 11).1 = .ok res ∧
       res.length = 2 ∧ res.Nodup ∧
       ∀ d ∈ res, d ∈ reviewPool revScheduler.schedule 1 2) ∧
     (∃ res, (random_assign revScheduler 1 1 11).1 = .ok res ∧
       res.length = 1 ∧ res.Nodup ∧
       ∀ d ∈ res, d ∈ assignPool revScheduler 1)) :=
  ⟨by decide, by decide, by decide, by decide,
    sample_size_contract revScheduler 1 2 1 2 1 11
      (by decide) (by decide) (by decide) (by decide) (by decide)⟩

/-- C6 counterexample: the failure values carry no payload.  Calls of
`random_review` with two different offending annotator ids (98 and 99)
produce the identical error value `annotatorNotFound none`, so the
offending id is not carried; calls requesting two different counts (3 and
5) against the same 2-element pool (and a `random_assign` shortage with a
different pool size) all produce the identical bare error value
`notEnoughReviews`, so neither the requested count nor the available pool
size is carried. -/
theorem error_payload_counterexample :
    ((random_review revScheduler 98 2 none 0).1 =
        .error (.annotatorNotFound none) ∧
     (random_review revScheduler 99 2 none 0).1 =
        .error (.annotatorNotFound none)) ∧
    ((random_review revScheduler 1 2 (some 3) 0).1 =
        .error .notEnoughReviews ∧
     (random_review revScheduler 1 2 (some 5) 0).1 =
        .error .notEnoughReviews ∧
     (random_assign revScheduler 1 3 0).1 = .error .notEnoughReviews) :=
  ⟨⟨rfl, rfl⟩, rfl, rfl, rfl⟩

/-- C6 amended: the two failure kinds are distinguishable, catchable
error values (distinct constructors of `SchedulerError`, with decidable
equality), but they carry no structured data: the unknown-annotator error
of `random_review` carries no annotator id at all, `random_assign` embeds
the id only inside a human-readable message string, and the
insufficient-pool error carries neither the requested count nor the
available pool size. -/
theorem error_kinds_no_payload (s : Scheduler) (rv re a : Nat)
    (n : Option Nat) (m seed : Nat)
    (hrv : rv ∉ annotatorIds s.task ∨ re ∉ annotatorIds s.task)
    (ha : a ∉ annotatorIds s.task) :
    (∀ msg, SchedulerError.annotatorNotFound msg ≠ .notEnoughReviews) ∧
    (random_review s rv re n seed).1 = .error (.annotatorNotFound none) ∧
    (random_assign s a m seed).1 =
      .error (.annotatorNotFound
        (some (toString a ++ " is not a known annotator"))) := by
  refine ⟨fun msg h => SchedulerError.noConfusion h, ?_, ?_⟩
  · rw [random_review_guard_fail hrv]
  · rw [random_assign_guard_fail ha]

theorem error_kinds_no_payload_witness :
    ((98 : Nat) ∉ annotatorIds revScheduler.task ∨
     (2 : Nat) ∉ annotatorIds revScheduler.task) ∧
    (99 : Nat) ∉ annotatorIds revScheduler.task ∧
    ((∀ msg, SchedulerError.annotatorNotFound msg ≠ .notEnoughReviews) ∧
     (random_review revScheduler 98 2 none 0).1 =
       .error (.annotatorNotFound none) ∧
     (random_assign revScheduler 99 1 0).1 =
       .error (.annotatorNotFound
         (some (toString (99 : Nat) ++ " is not a known annotator")))) :=
  ⟨by decide, by decide,
    error_kinds_no_payload revScheduler 98 2 99 none 1 0
      (by decide) (by decide)⟩

/-- C7: both operations are deterministic: two runs over equal scheduler
snapshots with the same arguments and the same random seed return the
same outcome. -/
theorem determinism_under_seed (s s' : Scheduler) (rv re a : Nat)
    (n : Option Nat) (m seed : Nat) (h : s = s') :
    (random_review s rv re n seed).1 = (random_review s' rv re n seed).1 ∧
    (random_assign s a m seed).1 = (random_assign s' a m seed).1 := by
  subst h
  exact ⟨rfl, rfl⟩

theorem determinism_under_seed_witness :
    revScheduler = revScheduler ∧
    ((random_review revScheduler 1 2 (some 2) 42).1 =
       (random_review revScheduler 1 2 (some 2) 42).1 ∧
     (random_assign revScheduler 1 1 42).1 =
       (random_assign revScheduler 1 1 42).1) :=
  ⟨rfl, determinism_under_seed revScheduler revScheduler 1 2 1
    (some 2) 1 42 rfl⟩

/-- C8: neither operation mutates its inputs: whatever the arguments and
whether the call returns or fails, the scheduler state (task view and
ledger snapshot) after the call is the state before it; the scheduler
performs no writes to the ledger. -/
theorem scheduler_no_mutation (s : Scheduler) (rv re a : Nat)
    (n : Option Nat) (m seed seed' : Nat) :
    (random_review s rv re n seed).2 = s ∧
    (random_assign s a m seed').2 = s := by
  constructor
  · rw [random_review.eq_def]
    split
    · rfl
    · split
      · rfl
      · split <;> rfl
  · rw [random_assign.eq_def]
    split
    · rfl
    · split <;> rfl

/-- C9: in the spec's labeling example (documents D1..D5 = 1..5, D1 and
D2 annotated, annotator A3 = 3 holding an ASSIGNED record for D3),
`random_assign 3 2` succeeds for every seed and returns exactly the
two-element set {D4, D5}. -/
theorem example_assign_D4_D5 (seed : Nat) :
    ∃ res, (random_assign egScheduler 3 2 seed).1 = .ok res ∧
      res.length = 2 ∧ ∀ d, d ∈ res ↔ (d = 4 ∨ d = 5) := by
  have hpool : assignPool egScheduler 3 = [4, 5] := by decide
  have hmem : (3 : Nat) ∈ annotatorIds egScheduler.task := by decide
  have hlen : 2 ≤ (assignPool egScheduler 3).length := by
    rw [hpool]
    exact le_rfl
  refine ⟨npChoice 2 seed (assignPool egScheduler 3), ?_, ?_, ?_⟩
  · rw [random_assign_le hmem hlen]
  · exact npChoice_length 2 seed _ hlen
  · intro d
    have hperm := npChoice_perm seed (assignPool egScheduler 3)
      (assignPool_nodup _ _)
    rw [hpool] at hperm ⊢
    rw [show ([4, 5] : List Nat).length = 2 from rfl] at hperm
    rw [hperm.mem_iff]
    simp

/-- C10: for every task and ledger snapshot and every member id,
reviewing oneself with `n` omitted yields an empty pool: every COMPLETED
document of the reviewee is a touched document of the reviewer when the
two coincide, so the set difference is empty. -/
theorem self_review_empty_pool (s : Scheduler) (a seed : Nat)
    (h : a ∈ annotatorIds s.task) :
    (random_review s a a none seed).1 = .ok [] := by
  have hempty : reviewPool s.schedule a a = [] := by
    rw [reviewPool, List.filter_eq_nil_iff]
    intro d hd
    simp only [decide_eq_true_eq, Decidable.not_not]
    rcases mem_completedDocs.mp hd with ⟨r, hr, hra, hrd, hrs⟩
    exact mem_touchedDocs.mpr ⟨r, hr, hra, hrd, Or.inr hrs⟩
  rw [random_review_none h h, hempty]

theorem self_review_empty_pool_witness :
    (2 : Nat) ∈ annotatorIds revScheduler.task ∧
    (random_review revScheduler 2 2 none 0).1 = .ok [] :=
  ⟨by decide, self_review_empty_pool revScheduler 2 0 (by decide)⟩

end Linalgo
